import Mathlib

/-!
Verification development for the audio-service OAuth backend.

The definitions below are a shallow embedding of the Python sources:
  app/services/auth.py   (JWT issue/verify, Yandex user info, reconciliation)
  app/services/audio.py  (audio file CRUD over DB rows and disk paths)
  app/routes/audio.py    (upload route: content-type and size checks)
  app/routes/yandex.py   (authorization-code exchange callback)
  app/core/config.py     (configured secret/algorithm/expiry, audio limits)

Machine time is modelled as epoch seconds (Int).  JWT encode/decode follows
python-jose semantics: `jwt.decode` verifies the signature first (a bad
signature raises JWTError before any claim is inspected), then validates
claims in order exp, then sub; python-jose has no `"require": [...]`
decode option (that is PyJWT syntax), so the option dict passed by
`verify_token` does not enforce presence of `exp`/`sub`.  The `sub` claim,
when present, must be a string, else JWTClaimsError.
-/

namespace AudioOAuth

/-- A JSON value usable as the `sub` claim: python-jose accepts only
strings there and raises `JWTClaimsError` on any other type. -/
inductive SubVal
| str (s : String)
| int (n : Int)
deriving DecidableEq

/-- The claim set carried by a token, restricted to the claims the code
reads and writes: `sub` and `exp` (epoch seconds). -/
structure JwtPayload where
sub : Option SubVal
exp : Option Int
deriving DecidableEq

/-- A signed compact token: `wellFormed` is whether the blob parses as a
JWS at all, `key`/`alg` record what the signature was produced with. -/
structure Jwt where
wellFormed : Bool
payload : JwtPayload
key : String
alg : String
deriving DecidableEq

/-- The exception kinds `jose.jwt.decode` can raise that the code in
`verify_token` distinguishes. -/
inductive JoseError
| jwsInvalid
| expiredSignature
| jwtClaims
deriving DecidableEq

/-- `sub` validation of python-jose (`_validate_sub`): if the claim is
present it must be a string. -/
def joseValidateSub (p : JwtPayload) : Except JoseError JwtPayload :=
  match p.sub with
  | some (SubVal.int _) => Except.error JoseError.jwtClaims
  | _ => Except.ok p

/-- `jose.jwt.decode token key algorithms` at time `now`: signature
verification first (wrapping any JWS failure into JWTError), then claim
validation, exp before sub.  The `options={"require": ["exp", "sub"]}`
argument passed at app/services/auth.py:162 is not a python-jose option
and is ignored, so a missing `exp` or `sub` is not an error here. -/
def joseDecode (tok : Jwt) (key : String) (algs : List String) (now : Int) :
    Except JoseError JwtPayload :=
  if !tok.wellFormed then Except.error JoseError.jwsInvalid
  else if !(tok.key == key && algs.contains tok.alg) then
    Except.error JoseError.jwsInvalid
  else
    match tok.payload.exp with
    | some e =>
        if e < now then Except.error JoseError.expiredSignature
        else joseValidateSub tok.payload
    | none => joseValidateSub tok.payload

/-- The JWT-relevant configuration (app/core/config.py `AuthSettings`):
secret key, signing algorithm, access-token lifetime in minutes.  The
source spells access to these values in two shapes (`settings.SECRET_KEY`
vs `settings.auth.algorithm`); both denote this one configured record. -/
structure AuthSettings where
secret_key : String
algorithm : String
access_token_expire_minutes : Int
deriving DecidableEq

/-- The `AuthSettings` defaults of app/core/config.py (the secret has no
default in the source, it is environment-supplied; a concrete stand-in is
used for closed instances). -/
def defaultAuthSettings : AuthSettings :=
  { secret_key := "env-secret", algorithm := "HS256"
    access_token_expire_minutes := 30 }

/-- An HTTPException as raised by the code: status code plus detail. -/
structure HttpError where
status_code : Nat
detail : String
deriving DecidableEq

/-- `AuthService.create_access_token` (app/services/auth.py:135-151):
copies the data, sets `exp := utcnow + expire_minutes`, signs with the
configured secret and algorithm. -/
def create_access_token (s : AuthSettings) (now : Int) (data : JwtPayload) :
    Jwt :=
  { wellFormed := true
    payload := { data with exp := some (now + s.access_token_expire_minutes * 60) }
    key := s.secret_key
    alg := s.algorithm }

/-- `AuthService.verify_token` (app/services/auth.py:153-179): decode with
the configured secret and algorithm, mapping the three jose exception
kinds to three distinct 401 responses. -/
def verify_token (s : AuthSettings) (now : Int) (tok : Jwt) :
    Except HttpError JwtPayload :=
  match joseDecode tok s.secret_key [s.algorithm] now with
  | Except.ok p => Except.ok p
  | Except.error JoseError.expiredSignature =>
      Except.error { status_code := 401, detail := "Token has expired" }
  | Except.error JoseError.jwtClaims =>
      Except.error { status_code := 401, detail := "Invalid token claims" }
  | Except.error JoseError.jwsInvalid =>
      Except.error { status_code := 401, detail := "Invalid token" }

/-! ## User reconciliation (app/services/auth.py:60-133)

The database is modelled as a list of committed user rows.  The session
of `_get_or_create_user` reads from a snapshot (the rows its SELECT sees)
and its COMMIT applies to the committed database, which a concurrent
transaction may have extended in between; a commit whose written row
violates the unique constraints on `yandex_id` or `email`
(app/models/user.py:13-15) raises IntegrityError. -/

/-- The `user_data` dict assembled in `authenticate_user`
(app/services/auth.py:73-81). -/
structure UserData where
yandex_id : String
email : String
name : String
access_token : String
token_expires : Int
deriving DecidableEq

/-- A row of the `users` table (app/models/user.py). -/
structure User where
id : Nat
yandex_id : String
email : String
name : String
access_token : String
refresh_token : String
token_expires : Int
is_active : Bool
is_superuser : Bool
deriving DecidableEq

/-- A users table. -/
abbrev UserDb := List User

/-- The lookup filter of `_get_or_create_user` (app/services/auth.py:106-109):
match by provider subject id OR email. -/
def matchesLookup (d : UserData) (u : User) : Bool :=
  u.yandex_id == d.yandex_id || u.email == d.email

/-- The update branch of `_get_or_create_user` (app/services/auth.py:113-120):
`access_token` and `token_expires` are always written; `yandex_id` and
`name` only when they differ. -/
def updateUser (u : User) (d : UserData) : User :=
  { u with
    access_token := d.access_token
    token_expires := d.token_expires
    yandex_id := if u.yandex_id != d.yandex_id then d.yandex_id else u.yandex_id
    name := if u.name != d.name then d.name else u.name }

/-- The create branch of `_get_or_create_user` (app/services/auth.py:121-129):
`User(**user_data, refresh_token="", is_active=True, is_superuser=False)`. -/
def newUser (id : Nat) (d : UserData) : User :=
  { id := id, yandex_id := d.yandex_id, email := d.email, name := d.name
    access_token := d.access_token, refresh_token := ""
    token_expires := d.token_expires, is_active := true, is_superuser := false }

/-- Whether committing row `u` violates the unique constraints on
`yandex_id` or `email` against the committed table (another row with a
different primary key holding the same unique value). -/
def violatesUnique (db : UserDb) (u : User) : Bool :=
  db.any (fun v => v.id != u.id && (v.yandex_id == u.yandex_id || v.email == u.email))

/-- `_get_or_create_user` over a single quiescent database (snapshot and
committed state coincide; the commit succeeds): returns the new committed
table and the returned row. -/
def get_or_create_user (db : UserDb) (newId : Nat) (d : UserData) :
    UserDb × User :=
  match db.find? (matchesLookup d) with
  | some u =>
      let u2 := updateUser u d
      (db.map (fun v => if v.id == u.id then u2 else v), u2)
  | none =>
      let u := newUser newId d
      (db ++ [u], u)

/-- Result of a transactional `_get_or_create_user`: either a successful
commit (new committed table, returned row) or IntegrityError raised at
COMMIT (app/services/auth.py:131). -/
inductive TxResult
| ok (db : UserDb) (u : User)
| integrityError
deriving DecidableEq

/-- `_get_or_create_user` with the SELECT evaluated on `snapshot` and the
COMMIT applied to `committed` (which a concurrent authentication may have
changed since the snapshot): the commit raises IntegrityError when the
written row violates a unique constraint in `committed`. -/
def get_or_create_user_tx (snapshot committed : UserDb) (newId : Nat)
    (d : UserData) : TxResult :=
  match snapshot.find? (matchesLookup d) with
  | some u =>
      let u2 := updateUser u d
      if violatesUnique committed u2 then TxResult.integrityError
      else TxResult.ok (committed.map (fun v => if v.id == u.id then u2 else v)) u2
  | none =>
      let u := newUser newId d
      if violatesUnique committed u then TxResult.integrityError
      else TxResult.ok (committed ++ [u]) u

/-- Outcome of `authenticate_user`: the HTTP-level result, the committed
table after the request, and how many COMMITs were attempted. -/
structure AuthOutcome where
result : Except HttpError User
committed : UserDb
commitAttempts : Nat

/-- The reconciliation step of `authenticate_user`
(app/services/auth.py:83-92): one call to `_get_or_create_user`; on
IntegrityError the session is rolled back (the committed table is left as
it was) and HTTP 409 is raised; there is no retry. -/
def authenticate_user_tx (snapshot committed : UserDb) (newId : Nat)
    (d : UserData) : AuthOutcome :=
  match get_or_create_user_tx snapshot committed newId d with
  | TxResult.ok db u =>
      { result := Except.ok u, committed := db, commitAttempts := 1 }
  | TxResult.integrityError =>
      { result := Except.error
          { status_code := 409
            detail := "User already exists with different credentials" }
        committed := committed
        commitAttempts := 1 }

/-! ## Audio file service (app/services/audio.py, app/routes/audio.py)

The metadata table is a list of rows; the storage directory is the list
of on-disk paths.  `os.unlink` may be refused by the operating system
(OSError: missing file, permissions, ...); the refusal environment is the
`unlinkOk` oracle. -/

/-- A row of the `audio_files` table as the service constructs it
(app/services/audio.py:39-45). -/
structure AudioFileRec where
id : Nat
user_id : Nat
original_filename : String
file_path : String
file_size : Nat
content_type : String
deriving DecidableEq

/-- An audio-files table. -/
abbrev AudioDb := List AudioFileRec

/-- `AudioService.get_user_audio_files` (app/services/audio.py:55-64):
all rows whose `user_id` is the caller. -/
def get_user_audio_files (db : AudioDb) (user_id : Nat) : List AudioFileRec :=
  db.filter (fun f => f.user_id == user_id)

/-- `AudioService.get_audio_file` (app/services/audio.py:66-79): SELECT
filtered by `id == file_id` AND `user_id == user_id`, `scalar_one_or_none`
(at most one row matches since `id` is the primary key), row or None. -/
def get_audio_file (db : AudioDb) (file_id user_id : Nat) :
    Option AudioFileRec :=
  db.find? (fun f => f.id == file_id && f.user_id == user_id)

/-- Events a delete request performs against shared state, in order. -/
inductive FsDbEvent
| unlinkAttempt (path : String)
| rowDelete (id : Nat)
| commit
deriving DecidableEq

/-- Outcome of `delete_audio_file`: returned boolean, table, disk, and
the ordered trace of state-changing steps performed. -/
structure DeleteOutcome where
success : Bool
db : AudioDb
disk : List String
events : List FsDbEvent
deriving DecidableEq

/-- `AudioService.delete_audio_file` (app/services/audio.py:81-105): same
owner-scoped SELECT as `get_audio_file`; if a row is found, attempt
`os.unlink` first (an OSError is printed and swallowed), then delete the
row and commit, returning True; otherwise return False having touched
nothing. -/
def delete_audio_file (unlinkOk : String → Bool) (db : AudioDb)
    (disk : List String) (file_id user_id : Nat) : DeleteOutcome :=
  match db.find? (fun f => f.id == file_id && f.user_id == user_id) with
  | some f =>
      let disk2 :=
        if disk.contains f.file_path && unlinkOk f.file_path then
          disk.erase f.file_path
        else disk
      { success := true
        db := db.filter (fun g => g.id != f.id)
        disk := disk2
        events := [FsDbEvent.unlinkAttempt f.file_path,
                   FsDbEvent.rowDelete f.id, FsDbEvent.commit] }
  | none =>
      { success := false, db := db, disk := disk, events := [] }

/-- The audio upload configuration (app/core/config.py `AudioSettings`
defaults: 10 MB, mpeg/wav). -/
structure AudioConfig where
max_file_size : Nat
allowed_types : List String
deriving DecidableEq

/-- `AudioSettings()` with its literal defaults. -/
def defaultAudioConfig : AudioConfig :=
  { max_file_size := 10000000, allowed_types := ["audio/mpeg", "audio/wav"] }

/-- An incoming multipart upload: declared filename, declared content
type, and the byte count of the spooled stream as measured by the
route's seek-to-end/tell (app/routes/audio.py:31-33). -/
structure UploadFileReq where
filename : String
content_type : String
size : Nat
deriving DecidableEq

/-- The parameters accepted by `AudioService.save_audio_file`
(app/services/audio.py:15-19): `(user_id, file, session)`, no `**kwargs`. -/
def saveAudioFileParams : List String := ["user_id", "file", "session"]

/-- The keyword arguments the upload route passes to
`AudioService.save_audio_file` (app/routes/audio.py:41-46). -/
def uploadRouteCallKwargs : List String :=
  ["user_id", "file", "session", "storage_path"]

/-- Python keyword binding for a function without `**kwargs`: every
keyword argument must name a declared parameter, else TypeError. -/
def kwargsBindOk (params kwargs : List String) : Bool :=
  kwargs.all (fun k => params.contains k)

/-- The body of `AudioService.save_audio_file` (app/services/audio.py:21-51):
write the bytes under a generated name in the storage directory, insert a
metadata row, commit, and return the stored record.  `storedName` stands
for the generated `uuid4 + extension` name. -/
def save_audio_file (owner : Nat) (file : UploadFileReq) (newId : Nat)
    (storedName : String) (db : AudioDb) (disk : List String) :
    AudioFileRec × AudioDb × List String :=
  let path := "uploads/" ++ storedName
  let row : AudioFileRec :=
    { id := newId, user_id := owner, original_filename := file.filename
      file_path := path, file_size := file.size
      content_type := file.content_type }
  (row, db ++ [row], disk ++ [path])

/-- Outcome of the upload route: HTTP-level result plus the table and
disk afterwards. -/
structure UploadOutcome where
result : Except HttpError AudioFileRec
db : AudioDb
disk : List String

/-- `upload_audio_file` (app/routes/audio.py:16-46): reject a content
type outside the allowed set with 400; then reject a stream larger than
the configured maximum with 413; otherwise call
`AudioService.save_audio_file` with keyword arguments
`user_id, file, session, storage_path`.  The callee declares no
`storage_path` parameter, so that call raises TypeError, which no handler
catches: the framework turns it into a 500 response and neither bytes nor
a row are persisted. -/
def upload_audio_file (cfg : AudioConfig) (owner : Nat) (file : UploadFileReq)
    (newId : Nat) (storedName : String) (db : AudioDb) (disk : List String) :
    UploadOutcome :=
  if !cfg.allowed_types.contains file.content_type then
    { result := Except.error { status_code := 400, detail := "Unsupported file type" }
      db := db, disk := disk }
  else if file.size > cfg.max_file_size then
    { result := Except.error { status_code := 413, detail := "File too large" }
      db := db, disk := disk }
  else if !kwargsBindOk saveAudioFileParams uploadRouteCallKwargs then
    { result := Except.error
        { status_code := 500
          detail := "TypeError: save_audio_file got an unexpected keyword argument storage_path" }
      db := db, disk := disk }
  else
    let out := save_audio_file owner file newId storedName db disk
    { result := Except.ok out.1, db := out.2.1, disk := out.2.2 }

/-! ## Outbound calls to the OAuth provider
(app/services/auth.py:19-58, app/routes/yandex.py:8-26)

Each call site is a named request; the network is an oracle mapping each
request to a response.  `netFailure` stands for a transport-level failure
(httpx.RequestError / requests RequestException: connection refused,
timeout, ...); `httpError` for a completed non-2xx response, which
`raise_for_status` turns into an exception. -/

/-- The three outbound provider calls the code makes. -/
inductive ProviderCall
| tokenInfo
| userInfo
| codeExchange
deriving DecidableEq

/-- The timeout each call site passes, in seconds.
`tokenInfo` and `userInfo` pass `timeout=10.0`
(app/services/auth.py:27,37); the authorization-code exchange
`requests.post(token_url, data=data)` (app/routes/yandex.py:21) passes
no timeout at all. -/
def callTimeout : ProviderCall → Option Nat
  | ProviderCall.tokenInfo => some 10
  | ProviderCall.userInfo => some 10
  | ProviderCall.codeExchange => none

/-- A provider payload: a JSON object as a string-keyed dictionary. -/
abbrev Dict := List (String × String)

/-- Python dict merge `{**a, **b}`: keys of `b` override those of `a`. -/
def mergeDict (a b : Dict) : Dict :=
  a.filter (fun p => !(b.any (fun q => q.1 == p.1))) ++ b

/-- What the network returns for one request. -/
inductive NetResult
| ok (payload : Dict)
| httpError (code : Nat)
| netFailure
deriving DecidableEq

/-- The network environment: a response for each call site. -/
structure NetEnv where
respond : ProviderCall → NetResult

/-- Outcome of a handler doing provider calls: the HTTP-level result and
the ordered list of requests actually issued. -/
structure NetOutcome where
result : Except HttpError Dict
requests : List ProviderCall

/-- `AuthService.get_yandex_user_info` (app/services/auth.py:19-58):
GET tokeninfo then GET user info, each with `timeout=10.0` and
`raise_for_status`; a non-2xx raises HTTPStatusError mapped to 401, a
transport failure raises RequestError mapped to 503
"Yandex OAuth service unavailable"; on success the two payloads are
merged, overridden with the presented access token. -/
def get_yandex_user_info (env : NetEnv) (access_token : String) : NetOutcome :=
  match env.respond ProviderCall.tokenInfo with
  | NetResult.netFailure =>
      { result := Except.error
          { status_code := 503, detail := "Yandex OAuth service unavailable" }
        requests := [ProviderCall.tokenInfo] }
  | NetResult.httpError _ =>
      { result := Except.error { status_code := 401, detail := "Yandex API error" }
        requests := [ProviderCall.tokenInfo] }
  | NetResult.ok tokenData =>
      match env.respond ProviderCall.userInfo with
      | NetResult.netFailure =>
          { result := Except.error
              { status_code := 503, detail := "Yandex OAuth service unavailable" }
            requests := [ProviderCall.tokenInfo, ProviderCall.userInfo] }
      | NetResult.httpError _ =>
          { result := Except.error { status_code := 401, detail := "Yandex API error" }
            requests := [ProviderCall.tokenInfo, ProviderCall.userInfo] }
      | NetResult.ok userData =>
          { result := Except.ok
              (mergeDict (mergeDict tokenData userData)
                [("access_token", access_token)])
            requests := [ProviderCall.tokenInfo, ProviderCall.userInfo] }

/-- `yandex_callback` (app/routes/yandex.py:8-26): one POST to the token
endpoint with no timeout; `raise_for_status` plus the
`except requests.exceptions.RequestException` handler map every failure
— transport failure or non-2xx alike — to HTTP 400
"Yandex OAuth error"; on success the provider JSON is returned. -/
def yandex_callback (env : NetEnv) : NetOutcome :=
  match env.respond ProviderCall.codeExchange with
  | NetResult.ok d =>
      { result := Except.ok d, requests := [ProviderCall.codeExchange] }
  | NetResult.httpError _ =>
      { result := Except.error { status_code := 400, detail := "Yandex OAuth error" }
        requests := [ProviderCall.codeExchange] }
  | NetResult.netFailure =>
      { result := Except.error { status_code := 400, detail := "Yandex OAuth error" }
        requests := [ProviderCall.codeExchange] }

/-- A network on which every request fails at transport level. -/
def envAllNetFailure : NetEnv := { respond := fun _ => NetResult.netFailure }

/-! ## Claims -/

/-- C1: Token round-trip — for every subject id U, creating an access
token via create_access_token with data containing sub = U and
immediately verifying it with verify_token succeeds and returns a claims
payload whose sub equals U (with the non-negative configured lifetime,
the freshly set expiry is not in the past). -/
theorem C1_token_round_trip (s : AuthSettings) (now : Int) (U : String)
    (h : 0 ≤ s.access_token_expire_minutes) :
    verify_token s now (create_access_token s now
        { sub := some (SubVal.str U), exp := none }) =
      Except.ok { sub := some (SubVal.str U)
                  exp := some (now + s.access_token_expire_minutes * 60) } := by
  have hlt : ¬ (now + s.access_token_expire_minutes * 60 < now) := by omega
  simp [verify_token, create_access_token, joseDecode, joseValidateSub, hlt]

/-- C1 witness: the round-trip evaluated at subject "42" under the
default configuration at a concrete instant. -/
theorem C1_token_round_trip_witness :
    (0 : Int) ≤ defaultAuthSettings.access_token_expire_minutes ∧
    verify_token defaultAuthSettings 1700000000
        (create_access_token defaultAuthSettings 1700000000
          { sub := some (SubVal.str "42"), exp := none }) =
      Except.ok { sub := some (SubVal.str "42")
                  exp := some (1700000000 +
                    defaultAuthSettings.access_token_expire_minutes * 60) } :=
  ⟨by decide, C1_token_round_trip defaultAuthSettings 1700000000 "42" (by decide)⟩

/-- C2 counterexample: a token whose expiry is in the past but whose
signature was made with a different key than the configured secret fails
with the malformed/invalid-signature kind ("Invalid token"), not the
expired kind — refuting "for every token whose expiry is in the past,
verify_token fails with the expired kind regardless of whether the
signature is valid". -/
theorem C2_expired_bad_signature_counterexample :
    (0 : Int) < 1700000000 ∧
    verify_token defaultAuthSettings 1700000000
        { wellFormed := true
          payload := { sub := some (SubVal.str "7"), exp := some 0 }
          key := "attacker-key", alg := "HS256" } =
      Except.error { status_code := 401, detail := "Invalid token" } ∧
    ({ status_code := 401, detail := "Invalid token" } : HttpError) ≠
      { status_code := 401, detail := "Token has expired" } := by
  refine ⟨by decide, ?_, by decide⟩
  rfl

/-- C2 (amended): a well-formed token signed with the configured secret
and algorithm that is unexpired and carries a string sub verifies to its
payload; a correctly signed token whose expiry is in the past fails with
the expired kind; a token that is malformed or not signed with the
configured secret and algorithm fails with the invalid-token kind
regardless of expiry; a correctly signed unexpired token whose sub claim
is not a string fails with the claims kind; and the three failure kinds
carry pairwise distinct details. -/
theorem C2_verify_token_kinds (s : AuthSettings) (now e : Int) (u : String)
    (tok : Jwt) :
    (tok.wellFormed = true → tok.key = s.secret_key → tok.alg = s.algorithm →
      tok.payload.exp = some e → ¬ e < now →
      tok.payload.sub = some (SubVal.str u) →
      verify_token s now tok = Except.ok tok.payload) ∧
    (tok.wellFormed = true → tok.key = s.secret_key → tok.alg = s.algorithm →
      tok.payload.exp = some e → e < now →
      verify_token s now tok =
        Except.error { status_code := 401, detail := "Token has expired" }) ∧
    (¬ (tok.wellFormed = true ∧ tok.key = s.secret_key ∧ tok.alg = s.algorithm) →
      verify_token s now tok =
        Except.error { status_code := 401, detail := "Invalid token" }) ∧
    (∀ n : Int, tok.wellFormed = true → tok.key = s.secret_key →
      tok.alg = s.algorithm → tok.payload.exp = some e → ¬ e < now →
      tok.payload.sub = some (SubVal.int n) →
      verify_token s now tok =
        Except.error { status_code := 401, detail := "Invalid token claims" }) ∧
    (({ status_code := 401, detail := "Token has expired" } : HttpError) ≠
        { status_code := 401, detail := "Invalid token" } ∧
      ({ status_code := 401, detail := "Token has expired" } : HttpError) ≠
        { status_code := 401, detail := "Invalid token claims" } ∧
      ({ status_code := 401, detail := "Invalid token" } : HttpError) ≠
        { status_code := 401, detail := "Invalid token claims" }) := by
  refine ⟨?_, ?_, ?_, ?_, by decide, by decide, by decide⟩
  · intro hw hk ha he hlt hsub
    simp [verify_token, joseDecode, joseValidateSub, hw, hk, ha, he, hlt, hsub]
  · intro hw hk ha he hlt
    simp [verify_token, joseDecode, hw, hk, ha, he, hlt]
  · intro hbad
    rcases Bool.eq_false_or_eq_true tok.wellFormed with hw | hw
    · by_cases hk : tok.key = s.secret_key
      · by_cases ha : tok.alg = s.algorithm
        · exact absurd ⟨hw, hk, ha⟩ hbad
        · simp [verify_token, joseDecode, hw, hk, ha]
      · simp [verify_token, joseDecode, hw, hk]
    · simp [verify_token, joseDecode, hw]
  · intro n hw hk ha he hlt hsub
    simp [verify_token, joseDecode, joseValidateSub, hw, hk, ha, he, hlt, hsub]

/-- C2 witness: the verify branches of the amended statement evaluated on
concrete tokens under the default configuration. -/
theorem C2_verify_token_kinds_witness :
    verify_token defaultAuthSettings 1700000000
        { wellFormed := true
          payload := { sub := some (SubVal.str "7"), exp := some 1700000600 }
          key := "env-secret", alg := "HS256" } =
      Except.ok { sub := some (SubVal.str "7"), exp := some 1700000600 } ∧
    verify_token defaultAuthSettings 1700000000
        { wellFormed := true
          payload := { sub := some (SubVal.str "7"), exp := some 5 }
          key := "env-secret", alg := "HS256" } =
      Except.error { status_code := 401, detail := "Token has expired" } :=
  ⟨(C2_verify_token_kinds defaultAuthSettings 1700000000 1700000600 "7"
      { wellFormed := true
        payload := { sub := some (SubVal.str "7"), exp := some 1700000600 }
        key := "env-secret", alg := "HS256" }).1
      rfl rfl rfl rfl (by decide) rfl,
   (C2_verify_token_kinds defaultAuthSettings 1700000000 5 "7"
      { wellFormed := true
        payload := { sub := some (SubVal.str "7"), exp := some 5 }
        key := "env-secret", alg := "HS256" }).2.1
      rfl rfl rfl rfl (by decide)⟩

/-- C3: Reconciliation create-or-update — if the lookup by provider
subject id or email finds a row, that row is returned updated in place
(same id, table length unchanged, access_token and token_expires
rewritten, yandex_id and name brought to the presented values, email and
the other fields untouched); if no row is found, exactly one new row is
appended carrying the presented fields with an empty refresh_token,
is_active true and is_superuser false. -/
theorem C3_reconcile_create_or_update (db : UserDb) (newId : Nat)
    (d : UserData) :
    (∀ u, db.find? (matchesLookup d) = some u →
      (get_or_create_user db newId d).2 = updateUser u d ∧
      (get_or_create_user db newId d).2.id = u.id ∧
      (get_or_create_user db newId d).1 =
        db.map (fun v => if v.id == u.id then updateUser u d else v) ∧
      (get_or_create_user db newId d).1.length = db.length ∧
      (updateUser u d).access_token = d.access_token ∧
      (updateUser u d).token_expires = d.token_expires ∧
      (updateUser u d).yandex_id = d.yandex_id ∧
      (updateUser u d).name = d.name ∧
      (updateUser u d).email = u.email ∧
      (updateUser u d).refresh_token = u.refresh_token ∧
      (updateUser u d).is_active = u.is_active ∧
      (updateUser u d).is_superuser = u.is_superuser) ∧
    (db.find? (matchesLookup d) = none →
      (get_or_create_user db newId d).1 = db ++ [newUser newId d] ∧
      (get_or_create_user db newId d).2 = newUser newId d ∧
      (get_or_create_user db newId d).1.length = db.length + 1 ∧
      (newUser newId d).yandex_id = d.yandex_id ∧
      (newUser newId d).email = d.email ∧
      (newUser newId d).name = d.name ∧
      (newUser newId d).access_token = d.access_token ∧
      (newUser newId d).token_expires = d.token_expires ∧
      (newUser newId d).refresh_token = "" ∧
      (newUser newId d).is_active = true ∧
      (newUser newId d).is_superuser = false) := by
  constructor
  · intro u hu
    have hy : (updateUser u d).yandex_id = d.yandex_id := by
      by_cases h : u.yandex_id = d.yandex_id
      · simp [updateUser, h]
      · simp [updateUser, h]
    have hn : (updateUser u d).name = d.name := by
      by_cases h : u.name = d.name
      · simp [updateUser, h]
      · simp [updateUser, h]
    refine ⟨?_, ?_, ?_, ?_, rfl, rfl, hy, hn, rfl, rfl, rfl, rfl⟩
    · simp [get_or_create_user, hu]
    · simp [get_or_create_user, hu, updateUser]
    · simp [get_or_create_user, hu]
    · simp [get_or_create_user, hu]
  · intro hu
    refine ⟨?_, ?_, ?_, rfl, rfl, rfl, rfl, rfl, rfl, rfl, rfl⟩
    · simp [get_or_create_user, hu]
    · simp [get_or_create_user, hu]
    · simp [get_or_create_user, hu]

/-- C3 witness: both branches evaluated concretely — a second
authentication for an existing row reuses it with refreshed token data,
and an unknown profile appends one fresh row with default flags. -/
theorem C3_reconcile_create_or_update_witness :
    (get_or_create_user
        [{ id := 3, yandex_id := "42", email := "a@b.com", name := "A"
           access_token := "old", refresh_token := "", token_expires := 100
           is_active := true, is_superuser := false }] 9
        { yandex_id := "42", email := "a@b.com", name := "A"
          access_token := "fresh", token_expires := 200 }).2.id = 3 ∧
    (get_or_create_user
        [{ id := 3, yandex_id := "42", email := "a@b.com", name := "A"
           access_token := "old", refresh_token := "", token_expires := 100
           is_active := true, is_superuser := false }] 9
        { yandex_id := "42", email := "a@b.com", name := "A"
          access_token := "fresh", token_expires := 200 }).1.length = 1 ∧
    (get_or_create_user [] 9
        { yandex_id := "42", email := "a@b.com", name := "A"
          access_token := "t", token_expires := 200 }).1 =
      [{ id := 9, yandex_id := "42", email := "a@b.com", name := "A"
         access_token := "t", refresh_token := "", token_expires := 200
         is_active := true, is_superuser := false }] := by
  refine ⟨?_, ?_, ?_⟩
  · exact ((C3_reconcile_create_or_update
        [{ id := 3, yandex_id := "42", email := "a@b.com", name := "A"
           access_token := "old", refresh_token := "", token_expires := 100
           is_active := true, is_superuser := false }] 9
        { yandex_id := "42", email := "a@b.com", name := "A"
          access_token := "fresh", token_expires := 200 }).1
        { id := 3, yandex_id := "42", email := "a@b.com", name := "A"
          access_token := "old", refresh_token := "", token_expires := 100
          is_active := true, is_superuser := false } rfl).2.1
  · exact ((C3_reconcile_create_or_update
        [{ id := 3, yandex_id := "42", email := "a@b.com", name := "A"
           access_token := "old", refresh_token := "", token_expires := 100
           is_active := true, is_superuser := false }] 9
        { yandex_id := "42", email := "a@b.com", name := "A"
          access_token := "fresh", token_expires := 200 }).1
        { id := 3, yandex_id := "42", email := "a@b.com", name := "A"
          access_token := "old", refresh_token := "", token_expires := 100
          is_active := true, is_superuser := false } rfl).2.2.2.1
  · exact ((C3_reconcile_create_or_update [] 9
        { yandex_id := "42", email := "a@b.com", name := "A"
          access_token := "t", token_expires := 200 }).2 rfl).1

/-- C4: a uniqueness violation raised at the commit of the reconciliation
step makes authenticate_user roll the session back (the committed table
is exactly what it was before the request, so no duplicate row remains),
answer with the 409 conflict error, and attempt the commit exactly once
(no retry). -/
theorem C4_integrity_conflict (snapshot committed : UserDb) (newId : Nat)
    (d : UserData)
    (h : get_or_create_user_tx snapshot committed newId d =
      TxResult.integrityError) :
    (authenticate_user_tx snapshot committed newId d).result =
      Except.error { status_code := 409
                     detail := "User already exists with different credentials" } ∧
    (authenticate_user_tx snapshot committed newId d).committed = committed ∧
    (authenticate_user_tx snapshot committed newId d).commitAttempts = 1 := by
  simp [authenticate_user_tx, h]

/-- C4 witness: a snapshot that saw no row for subject "42" while a
concurrent authentication already committed one — the insert violates the
unique constraint and the request ends in 409 with the table unchanged. -/
theorem C4_integrity_conflict_witness :
    (authenticate_user_tx []
        [{ id := 1, yandex_id := "42", email := "a@b.com", name := "A"
           access_token := "t0", refresh_token := "", token_expires := 100
           is_active := true, is_superuser := false }] 2
        { yandex_id := "42", email := "a@b.com", name := "A"
          access_token := "t1", token_expires := 200 }).result =
      Except.error { status_code := 409
                     detail := "User already exists with different credentials" } ∧
    (authenticate_user_tx []
        [{ id := 1, yandex_id := "42", email := "a@b.com", name := "A"
           access_token := "t0", refresh_token := "", token_expires := 100
           is_active := true, is_superuser := false }] 2
        { yandex_id := "42", email := "a@b.com", name := "A"
          access_token := "t1", token_expires := 200 }).committed =
      [{ id := 1, yandex_id := "42", email := "a@b.com", name := "A"
         access_token := "t0", refresh_token := "", token_expires := 100
         is_active := true, is_superuser := false }] ∧
    (authenticate_user_tx []
        [{ id := 1, yandex_id := "42", email := "a@b.com", name := "A"
           access_token := "t0", refresh_token := "", token_expires := 100
           is_active := true, is_superuser := false }] 2
        { yandex_id := "42", email := "a@b.com", name := "A"
          access_token := "t1", token_expires := 200 }).commitAttempts = 1 :=
  C4_integrity_conflict []
    [{ id := 1, yandex_id := "42", email := "a@b.com", name := "A"
       access_token := "t0", refresh_token := "", token_expires := 100
       is_active := true, is_superuser := false }] 2
    { yandex_id := "42", email := "a@b.com", name := "A"
      access_token := "t1", token_expires := 200 } rfl

/-- C5: Ownership non-leak — with unique row ids, get_audio_file returns
None both when no row carries the requested id and when the row carrying
it belongs to a different user (the two responses are the same value,
None, hence indistinguishable), and it returns a record exactly when that
record is in the table with the requested id and the caller as owner. -/
theorem C5_ownership_nonleak (db : AudioDb) (fid uid : Nat)
    (hids : (db.map (fun f => f.id)).Nodup) :
    ((∀ f ∈ db, f.id ≠ fid) → get_audio_file db fid uid = none) ∧
    (∀ g ∈ db, g.id = fid → g.user_id ≠ uid →
      get_audio_file db fid uid = none) ∧
    (∀ m, get_audio_file db fid uid = some m ↔
      (m ∈ db ∧ m.id = fid ∧ m.user_id = uid)) := by
  have hinj : ∀ x ∈ db, ∀ y ∈ db, x.id = y.id → x = y := by
    intro x hx y hy hxy
    exact List.inj_on_of_nodup_map hids hx hy hxy
  refine ⟨?_, ?_, ?_⟩
  · intro h
    unfold get_audio_file
    rw [List.find?_eq_none]
    intro f hf
    simp only [Bool.and_eq_true, beq_iff_eq, not_and]
    intro hid _
    exact h f hf hid
  · intro g hg hgid hgud
    unfold get_audio_file
    rw [List.find?_eq_none]
    intro f hf
    simp only [Bool.and_eq_true, beq_iff_eq, not_and]
    intro hfid hfud
    have hfg : f = g := hinj f hf g hg (hfid.trans hgid.symm)
    rw [hfg] at hfud
    exact hgud hfud
  · intro m
    constructor
    · intro hm
      unfold get_audio_file at hm
      have hp := List.find?_some hm
      have hmem := List.mem_of_find?_eq_some hm
      simp only [Bool.and_eq_true, beq_iff_eq] at hp
      exact ⟨hmem, hp.1, hp.2⟩
    · rintro ⟨hm, hid, hud⟩
      unfold get_audio_file
      cases hfind : db.find? (fun f => f.id == fid && f.user_id == uid) with
      | none =>
          exfalso
          have hnone := List.find?_eq_none.mp hfind m hm
          simp only [Bool.and_eq_true, beq_iff_eq, not_and] at hnone
          exact hnone hid hud
      | some f =>
          have hp := List.find?_some hfind
          have hfm := List.mem_of_find?_eq_some hfind
          simp only [Bool.and_eq_true, beq_iff_eq] at hp
          have hfm2 : f = m := hinj f hfm m hm (hp.1.trans hid.symm)
          rw [hfm2]

/-- C5 witness: on a one-row table owned by user 7, fetching a
nonexistent id and fetching the existing id as user 8 both evaluate to
None. -/
theorem C5_ownership_nonleak_witness :
    get_audio_file
        [{ id := 1, user_id := 7, original_filename := "a.mp3"
           file_path := "uploads/x.mp3", file_size := 5
           content_type := "audio/mpeg" }] 2 7 = none ∧
    get_audio_file
        [{ id := 1, user_id := 7, original_filename := "a.mp3"
           file_path := "uploads/x.mp3", file_size := 5
           content_type := "audio/mpeg" }] 1 8 = none :=
  ⟨(C5_ownership_nonleak
      [{ id := 1, user_id := 7, original_filename := "a.mp3"
         file_path := "uploads/x.mp3", file_size := 5
         content_type := "audio/mpeg" }] 2 7 (by decide)).1 (by decide),
   (C5_ownership_nonleak
      [{ id := 1, user_id := 7, original_filename := "a.mp3"
         file_path := "uploads/x.mp3", file_size := 5
         content_type := "audio/mpeg" }] 1 8 (by decide)).2.1
      { id := 1, user_id := 7, original_filename := "a.mp3"
        file_path := "uploads/x.mp3", file_size := 5
        content_type := "audio/mpeg" } (by decide) rfl (by decide)⟩

/-- C6 counterexample: an 11 MB upload whose content type is not allowed
is rejected with 400, not with the oversize 413 — refuting "for every
upload whose size exceeds the configured maximum, the upload operation is
rejected with the oversize error (HTTP 413)", because the route checks
the content type first. -/
theorem C6_oversize_bad_type_counterexample :
    11000000 > defaultAudioConfig.max_file_size ∧
    (upload_audio_file defaultAudioConfig 1
        { filename := "a.txt", content_type := "text/plain", size := 11000000 }
        10 "u.bin" [] []).result =
      Except.error { status_code := 400, detail := "Unsupported file type" } ∧
    ({ status_code := 400, detail := "Unsupported file type" } : HttpError
      ).status_code ≠ 413 := by
  refine ⟨by decide, rfl, by decide⟩

/-- C6 (amended): an upload of an allowed content type whose measured
size exceeds the configured maximum is rejected with 413, and an upload
whose content type is not in the allowed set is rejected with 400 (the
type check runs first); in both cases the rejection happens before
save_audio_file runs, so the table and the storage directory are exactly
as before. -/
theorem C6_upload_rejections (cfg : AudioConfig) (owner : Nat)
    (file : UploadFileReq) (newId : Nat) (sn : String) (db : AudioDb)
    (disk : List String) :
    (cfg.allowed_types.contains file.content_type = true →
      file.size > cfg.max_file_size →
      upload_audio_file cfg owner file newId sn db disk =
        { result := Except.error { status_code := 413, detail := "File too large" }
          db := db, disk := disk }) ∧
    (cfg.allowed_types.contains file.content_type = false →
      upload_audio_file cfg owner file newId sn db disk =
        { result := Except.error { status_code := 400
                                   detail := "Unsupported file type" }
          db := db, disk := disk }) := by
  constructor
  · intro h1 h2
    have h1m : file.content_type ∈ cfg.allowed_types := by simpa using h1
    simp [upload_audio_file, h1m, h2]
  · intro h1
    have h1m : file.content_type ∉ cfg.allowed_types := by simpa using h1
    simp [upload_audio_file, h1m]

/-- C6 witness: an 11 MB audio/mpeg upload under the default 10 MB
configuration is rejected with 413 leaving table and disk untouched, and
a text/plain upload is rejected with 400. -/
theorem C6_upload_rejections_witness :
    upload_audio_file defaultAudioConfig 1
        { filename := "big.mp3", content_type := "audio/mpeg", size := 11000000 }
        10 "u.mp3" [] [] =
      { result := Except.error { status_code := 413, detail := "File too large" }
        db := [], disk := [] } ∧
    upload_audio_file defaultAudioConfig 1
        { filename := "a.txt", content_type := "text/plain", size := 3 }
        10 "u.bin" [] [] =
      { result := Except.error { status_code := 400
                                 detail := "Unsupported file type" }
        db := [], disk := [] } :=
  ⟨(C6_upload_rejections defaultAudioConfig 1
      { filename := "big.mp3", content_type := "audio/mpeg", size := 11000000 }
      10 "u.mp3" [] []).1 (by decide) (by decide),
   (C6_upload_rejections defaultAudioConfig 1
      { filename := "a.txt", content_type := "text/plain", size := 3 }
      10 "u.bin" [] []).2 (by decide)⟩

/-- C7: a valid upload (5 MB, audio/mpeg, under the default 10 MB and
mpeg/wav configuration) does not succeed: the route passes the keyword
argument storage_path to AudioService.save_audio_file, whose signature is
(user_id, file, session), so the call raises TypeError and the request
ends in a 500 with no row stored — the file never appears in the owner's
list. -/
theorem C7_valid_upload_breaks :
    kwargsBindOk saveAudioFileParams uploadRouteCallKwargs = false ∧
    (upload_audio_file defaultAudioConfig 1
        { filename := "song.mp3", content_type := "audio/mpeg", size := 5000000 }
        10 "u.mp3" [] []).result =
      Except.error
        { status_code := 500
          detail := "TypeError: save_audio_file got an unexpected keyword argument storage_path" } ∧
    (upload_audio_file defaultAudioConfig 1
        { filename := "song.mp3", content_type := "audio/mpeg", size := 5000000 }
        10 "u.mp3" [] []).db = [] ∧
    get_user_audio_files
      (upload_audio_file defaultAudioConfig 1
          { filename := "song.mp3", content_type := "audio/mpeg", size := 5000000 }
          10 "u.mp3" [] []).db 1 = [] :=
  ⟨rfl, rfl, rfl, rfl⟩

/-- C8 counterexample: when the operating system refuses the unlink (the
OSError branch, which the code prints and swallows), deleting an owned
file still returns true and a subsequent fetch returns None, yet the
bytes are still on disk — refuting "after a successful delete ... the
bytes are absent from disk". -/
theorem C8_unlink_failure_counterexample :
    (delete_audio_file (fun _ => false)
        [{ id := 1, user_id := 7, original_filename := "a.mp3"
           file_path := "uploads/x.mp3", file_size := 5
           content_type := "audio/mpeg" }] ["uploads/x.mp3"] 1 7).success =
      true ∧
    get_audio_file
      (delete_audio_file (fun _ => false)
          [{ id := 1, user_id := 7, original_filename := "a.mp3"
             file_path := "uploads/x.mp3", file_size := 5
             content_type := "audio/mpeg" }] ["uploads/x.mp3"] 1 7).db 1 7 =
      none ∧
    (delete_audio_file (fun _ => false)
        [{ id := 1, user_id := 7, original_filename := "a.mp3"
           file_path := "uploads/x.mp3", file_size := 5
           content_type := "audio/mpeg" }] ["uploads/x.mp3"] 1 7).disk =
      ["uploads/x.mp3"] :=
  ⟨rfl, rfl, rfl⟩

/-- C8 (amended): for a row matching the id and the calling owner,
delete_audio_file attempts the disk unlink first and deletes the row
after (the event trace is unlink, then row delete, then commit), returns
true, removes the row whether or not the unlink was refused, a subsequent
get_audio_file returns None, and the bytes are absent from disk whenever
the unlink succeeded (the path was present and the OS allowed it). -/
theorem C8_delete_owned (unlinkOk : String → Bool) (db : AudioDb)
    (disk : List String) (fid uid : Nat) (f : AudioFileRec)
    (hfind : db.find? (fun g => g.id == fid && g.user_id == uid) = some f) :
    (delete_audio_file unlinkOk db disk fid uid).success = true ∧
    (delete_audio_file unlinkOk db disk fid uid).events =
      [FsDbEvent.unlinkAttempt f.file_path, FsDbEvent.rowDelete f.id,
       FsDbEvent.commit] ∧
    (delete_audio_file unlinkOk db disk fid uid).db =
      db.filter (fun g => g.id != f.id) ∧
    get_audio_file (delete_audio_file unlinkOk db disk fid uid).db fid uid =
      none ∧
    (disk.contains f.file_path = true → unlinkOk f.file_path = true →
      (delete_audio_file unlinkOk db disk fid uid).disk =
        disk.erase f.file_path) := by
  have hpf := List.find?_some hfind
  simp only [Bool.and_eq_true, beq_iff_eq] at hpf
  refine ⟨?_, ?_, ?_, ?_, ?_⟩
  · simp [delete_audio_file, hfind]
  · simp [delete_audio_file, hfind]
  · simp [delete_audio_file, hfind]
  · have hdb : (delete_audio_file unlinkOk db disk fid uid).db =
        db.filter (fun g => g.id != f.id) := by
      simp [delete_audio_file, hfind]
    rw [hdb]
    unfold get_audio_file
    rw [List.find?_eq_none]
    intro g hg
    have hgmem := List.mem_filter.mp hg
    simp only [bne_iff_ne, ne_eq] at hgmem
    simp only [Bool.and_eq_true, beq_iff_eq, not_and]
    intro hgid _
    exact hgmem.2 (hgid.trans hpf.1.symm)
  · intro hc hok
    have hcm : f.file_path ∈ disk := by simpa using hc
    simp [delete_audio_file, hfind, hcm, hok]

/-- C8 witness: on a one-row table with the path present and the unlink
allowed, the delete returns true and the path is erased from disk. -/
theorem C8_delete_owned_witness :
    (delete_audio_file (fun _ => true)
        [{ id := 1, user_id := 7, original_filename := "a.mp3"
           file_path := "uploads/x.mp3", file_size := 5
           content_type := "audio/mpeg" }] ["uploads/x.mp3"] 1 7).success =
      true ∧
    (delete_audio_file (fun _ => true)
        [{ id := 1, user_id := 7, original_filename := "a.mp3"
           file_path := "uploads/x.mp3", file_size := 5
           content_type := "audio/mpeg" }] ["uploads/x.mp3"] 1 7).disk =
      (["uploads/x.mp3"] : List String).erase "uploads/x.mp3" :=
  ⟨(C8_delete_owned (fun _ => true)
      [{ id := 1, user_id := 7, original_filename := "a.mp3"
         file_path := "uploads/x.mp3", file_size := 5
         content_type := "audio/mpeg" }] ["uploads/x.mp3"] 1 7
      { id := 1, user_id := 7, original_filename := "a.mp3"
        file_path := "uploads/x.mp3", file_size := 5
        content_type := "audio/mpeg" } rfl).1,
   (C8_delete_owned (fun _ => true)
      [{ id := 1, user_id := 7, original_filename := "a.mp3"
         file_path := "uploads/x.mp3", file_size := 5
         content_type := "audio/mpeg" }] ["uploads/x.mp3"] 1 7
      { id := 1, user_id := 7, original_filename := "a.mp3"
        file_path := "uploads/x.mp3", file_size := 5
        content_type := "audio/mpeg" } rfl).2.2.2.2 (by decide) rfl⟩

/-- C9 counterexample: the authorization-code token exchange in
yandex_callback carries no timeout at all, and on a transport failure the
request ends in 400, not 503 — refuting "every outbound HTTP call to the
OAuth provider carries an explicit timeout of about 10 seconds, and every
network failure on such a call is translated to a service-unavailable
error (HTTP 503)". -/
theorem C9_code_exchange_counterexample :
    callTimeout ProviderCall.codeExchange = none ∧
    (yandex_callback envAllNetFailure).result =
      Except.error { status_code := 400, detail := "Yandex OAuth error" } ∧
    ({ status_code := 400, detail := "Yandex OAuth error" } : HttpError
      ).status_code ≠ 503 :=
  ⟨rfl, rfl, by decide⟩

/-- C9 (amended): the token-info and user-info calls each carry an
explicit 10-second timeout and translate a transport failure into the 503
service-unavailable error after exactly one request to the failing
endpoint (no retry); the authorization-code exchange call carries no
explicit timeout and translates a transport failure into a 400 error,
also after exactly one request. -/
theorem C9_provider_call_policy (env : NetEnv) (tok : String) :
    callTimeout ProviderCall.tokenInfo = some 10 ∧
    callTimeout ProviderCall.userInfo = some 10 ∧
    callTimeout ProviderCall.codeExchange = none ∧
    (env.respond ProviderCall.tokenInfo = NetResult.netFailure →
      get_yandex_user_info env tok =
        { result := Except.error
            { status_code := 503, detail := "Yandex OAuth service unavailable" }
          requests := [ProviderCall.tokenInfo] }) ∧
    (∀ d, env.respond ProviderCall.tokenInfo = NetResult.ok d →
      env.respond ProviderCall.userInfo = NetResult.netFailure →
      get_yandex_user_info env tok =
        { result := Except.error
            { status_code := 503, detail := "Yandex OAuth service unavailable" }
          requests := [ProviderCall.tokenInfo, ProviderCall.userInfo] }) ∧
    (env.respond ProviderCall.codeExchange = NetResult.netFailure →
      yandex_callback env =
        { result := Except.error
            { status_code := 400, detail := "Yandex OAuth error" }
          requests := [ProviderCall.codeExchange] }) := by
  refine ⟨rfl, rfl, rfl, ?_, ?_, ?_⟩
  · intro h
    simp [get_yandex_user_info, h]
  · intro d h1 h2
    simp [get_yandex_user_info, h1, h2]
  · intro h
    simp [yandex_callback, h]

/-- C9 witness: on a network where every request fails at transport
level, get_yandex_user_info answers 503 after its first request. -/
theorem C9_provider_call_policy_witness :
    get_yandex_user_info envAllNetFailure "tok" =
      { result := Except.error
          { status_code := 503, detail := "Yandex OAuth service unavailable" }
        requests := [ProviderCall.tokenInfo] } :=
  (C9_provider_call_policy envAllNetFailure "tok").2.2.2.1 rfl

/-- C10: failure frame of delete — when no row matches both the id and
the calling owner (in particular when the row with that id belongs to
another user), delete_audio_file returns false, leaves the table and the
disk exactly as they were, and performs no unlink attempt, no row delete
and no commit. -/
theorem C10_delete_frame (unlinkOk : String → Bool) (db : AudioDb)
    (disk : List String) (fid uid : Nat)
    (h : ∀ f ∈ db, ¬ (f.id = fid ∧ f.user_id = uid)) :
    delete_audio_file unlinkOk db disk fid uid =
      { success := false, db := db, disk := disk, events := [] } := by
  have hf : db.find? (fun f => f.id == fid && f.user_id == uid) = none := by
    rw [List.find?_eq_none]
    intro f hfm
    simp only [Bool.and_eq_true, beq_iff_eq]
    exact h f hfm
  simp [delete_audio_file, hf]

/-- C10 witness: a delete of file 1 requested by user 8 while the row
belongs to user 7 returns false with the row, the disk bytes and the
event trace untouched. -/
theorem C10_delete_frame_witness :
    delete_audio_file (fun _ => true)
        [{ id := 1, user_id := 7, original_filename := "a.mp3"
           file_path := "uploads/x.mp3", file_size := 5
           content_type := "audio/mpeg" }] ["uploads/x.mp3"] 1 8 =
      { success := false
        db := [{ id := 1, user_id := 7, original_filename := "a.mp3"
                 file_path := "uploads/x.mp3", file_size := 5
                 content_type := "audio/mpeg" }]
        disk := ["uploads/x.mp3"], events := [] } :=
  C10_delete_frame (fun _ => true)
    [{ id := 1, user_id := 7, original_filename := "a.mp3"
       file_path := "uploads/x.mp3", file_size := 5
       content_type := "audio/mpeg" }] ["uploads/x.mp3"] 1 8 (by decide)

end AudioOAuth
